import Mathlib

/-!
Verification development for the chore-accountability reminder bot
(`src/main.py`).  The Python source is shallowly embedded below:

* dates and times are modelled by the `DateTime` structure at one-second
  granularity (the source serialises every timestamp through
  `strftime('%Y-%m-%d %H:%M:%S')`, which truncates sub-second parts);
* `calculate_next_reminder` is translated from `main.py` lines 148-174,
  with `datetime.now()` passed in explicitly as `now` and the
  exception-raising paths (`ValueError` from `int(...)`, unpacking, or
  `datetime.replace` range validation) modelled as `none`;
* the `on_reaction_add` event handler is translated from lines 286-510,
  with the sqlite row set as a list of `ReminderData` records, the
  APScheduler job table as a list of `Job` entries (where `add_job`
  on an existing job id raises `ConflictingIdError`, modelled as a
  failing `addJob`), and outbound Discord messages recorded as tags.
-/

/-- Gregorian leap-year test, as used by the Python `datetime` module. -/
def isLeap (y : Nat) : Bool :=
  (y % 4 == 0 && y % 100 != 0) || y % 400 == 0

/-- Number of days in month `m` (1-12) of year `y`. -/
def daysInMonth (y m : Nat) : Nat :=
  if m = 2 then (if isLeap y then 29 else 28)
  else if m = 4 ∨ m = 6 ∨ m = 9 ∨ m = 11 then 30
  else 31

/-- Days in months `1, ..., m-1` of year `y`. -/
def daysBeforeMonth (y : Nat) : Nat → Nat
  | 0 => 0
  | 1 => 0
  | m + 2 => daysBeforeMonth y (m + 1) + daysInMonth y (m + 1)

/-- Number of leap years in `1, ..., y-1`. -/
def leapsBefore (y : Nat) : Nat :=
  (y - 1) / 4 - (y - 1) / 100 + (y - 1) / 400

/-- A timestamp at one-second granularity, mirroring a Python `datetime`
value as serialised by the format string used throughout the source. -/
structure DateTime where
  year : Nat
  month : Nat
  day : Nat
  hour : Nat
  minute : Nat
  second : Nat
deriving DecidableEq

/-- Days elapsed since 0001-01-01 (day zero), proleptic Gregorian;
`Python date.toordinal() - 1`. -/
def toDays (dt : DateTime) : Nat :=
  365 * (dt.year - 1) + leapsBefore dt.year
    + daysBeforeMonth dt.year dt.month + (dt.day - 1)

/-- Seconds since 0001-01-01T00:00:00, used to compare timestamps the way
Python compares `datetime` values. -/
def toSecs (dt : DateTime) : Nat :=
  toDays dt * 86400 + dt.hour * 3600 + dt.minute * 60 + dt.second

/-- Python `datetime.weekday()`: Monday is 0, Sunday is 6
(0001-01-01 was a Monday). -/
def weekday (dt : DateTime) : Nat := toDays dt % 7

/-- Validity of a `DateTime`, matching the range checks performed by the
Python `datetime` constructor (and therefore by `datetime.replace`). -/
def DateTime.ValidB (dt : DateTime) : Bool :=
  1 ≤ dt.year && 1 ≤ dt.month && dt.month ≤ 12 && 1 ≤ dt.day
    && dt.day ≤ daysInMonth dt.year dt.month
    && dt.hour ≤ 23 && dt.minute ≤ 59 && dt.second ≤ 59

def DateTime.Valid (dt : DateTime) : Prop := dt.ValidB = true

instance (dt : DateTime) : Decidable dt.Valid := by
  unfold DateTime.Valid; infer_instance

/-- Python `datetime(...)` / `datetime.replace(...)`: builds the value when
all fields are in range and raises `ValueError` (here: `none`) otherwise. -/
def mkDT? (y mo d h mi s : Nat) : Option DateTime :=
  let dt : DateTime := ⟨y, mo, d, h, mi, s⟩
  if dt.ValidB then some dt else none

/-- Step one calendar day forward, time of day unchanged. -/
def nextDay (dt : DateTime) : DateTime :=
  if dt.day < daysInMonth dt.year dt.month then { dt with day := dt.day + 1 }
  else if dt.month < 12 then { dt with month := dt.month + 1, day := 1 }
  else { dt with year := dt.year + 1, month := 1, day := 1 }

/-- Step one calendar day backward, time of day unchanged.  Python raises
`OverflowError` below year 1; the model instead continues into the
proleptic year 0, which no claim reaches. -/
def prevDay (dt : DateTime) : DateTime :=
  if 1 < dt.day then { dt with day := dt.day - 1 }
  else if 1 < dt.month then
    { dt with month := dt.month - 1, day := daysInMonth dt.year (dt.month - 1) }
  else { dt with year := dt.year - 1, month := 12, day := 31 }

/-- `dt + timedelta(days=n)` for a nonnegative day count. -/
def addDays (dt : DateTime) : Nat → DateTime
  | 0 => dt
  | n + 1 => nextDay (addDays dt n)

/-- `dt - timedelta(days=n)` for a nonnegative day count. -/
def subDays (dt : DateTime) : Nat → DateTime
  | 0 => dt
  | n + 1 => prevDay (subDays dt n)

/-- `dt + timedelta(days=k)` for a signed day count, as Python allows. -/
def addDaysI (dt : DateTime) : Int → DateTime
  | Int.ofNat n => addDays dt n
  | Int.negSucc n => subDays dt (n + 1)

/-- `dt + timedelta(seconds=n)`, carrying into the calendar date. -/
def addSecs (dt : DateTime) (n : Nat) : DateTime :=
  let t := dt.hour * 3600 + dt.minute * 60 + dt.second + n
  let stepped := addDays dt (t / 86400)
  { stepped with
      hour := t % 86400 / 3600
      minute := t % 86400 % 3600 / 60
      second := t % 86400 % 60 }

/-- Python `str.split(sep)` for a one-character separator: splits at every
occurrence and keeps empty fields. -/
def splitChar (c : Char) : List Char → List Char → List (List Char)
  | [], acc => [acc.reverse]
  | x :: xs, acc =>
    if x = c then acc.reverse :: splitChar c xs []
    else splitChar c xs (x :: acc)

/-- Decimal digits to a number; `none` on any non-digit. -/
def digitsToNat (acc : Nat) : List Char → Option Nat
  | [] => some acc
  | c :: cs =>
    if c.isDigit then digitsToNat (acc * 10 + (c.toNat - 48)) cs else none

/-- Python `int(s)` restricted to an unsigned decimal literal. -/
def parseNat : List Char → Option Nat
  | [] => none
  | l => digitsToNat 0 l

/-- Python `int(s)` for a signed decimal literal.  (Python additionally
tolerates surrounding whitespace and a leading plus; the claims only
concern well-formed values, where the two agree.) -/
def parseInt : List Char → Option Int
  | '-' :: rest => (parseNat rest).map (fun n => -(n : Int))
  | l => (parseNat l).map (fun n => (n : Int))

/-- Python `hour, minute = map(int, s.split(':'))`: exactly two fields,
each a decimal number.  (A negative or oversized component parsed by
Python `int` is rejected by the subsequent `datetime.replace` range
check; both paths end in failure, which the model reports at parse
time.) -/
def parseHM (s : String) : Option (Nat × Nat) :=
  match splitChar ':' s.data [] with
  | [hs, ms] =>
    match parseNat hs, parseNat ms with
    | some h, some m => some (h, m)
    | _, _ => none
  | _ => none

/-- Python `day, time = s.split(',')` followed by `int(day)` and the HH:MM
parse.  The day component keeps its sign: the weekly branch feeds it into
`timedelta` arithmetic where a negative value is meaningful in Python. -/
def parseDayTime (s : String) : Option (Int × Nat × Nat) :=
  match splitChar ',' s.data [] with
  | [ds, ts] =>
    match parseInt ds, parseHM (String.mk ts) with
    | some d, some (h, m) => some (d, h, m)
    | _, _ => none
  | _ => none

/-- `main.py` lines 151-155: daily branch of `calculate_next_reminder`.
`now.replace(hour=h, minute=m)` keeps the seconds of `now`. -/
def calcDaily (now : DateTime) (h m : Nat) : Option DateTime :=
  match mkDT? now.year now.month now.day h m now.second with
  | none => none
  | some next =>
    some (if toSecs next ≤ toSecs now then addDays next 1 else next)

/-- `main.py` lines 156-163: weekly branch.  `days_ahead` is the target
weekday minus `now.weekday()`, bumped by 7 when zero or negative; the
time of day is then replaced on the stepped date. -/
def calcWeekly (now : DateTime) (w : Int) (h m : Nat) : Option DateTime :=
  let days_ahead : Int := w - (weekday now : Int)
  let days_ahead := if days_ahead ≤ 0 then days_ahead + 7 else days_ahead
  let stepped := addDaysI now days_ahead
  mkDT? stepped.year stepped.month stepped.day h m stepped.second

/-- `main.py` lines 164-172: monthly branch.  `now.replace(day=d, ...)`
raises when `d` does not exist in the current month; after a rollover the
second `replace` likewise validates `d` against the target month. -/
def calcMonthly (now : DateTime) (d h m : Nat) : Option DateTime :=
  match mkDT? now.year now.month d h m now.second with
  | none => none
  | some next =>
    if toSecs next ≤ toSecs now then
      if now.month = 12 then
        mkDT? (now.year + 1) 1 d h m now.second
      else
        mkDT? now.year (now.month + 1) d h m now.second
    else some next

/-- `main.py` lines 148-174, `calculate_next_reminder`.  The Python
function reads `datetime.now()` itself; the model receives it as `now`.
A `ValueError` raised by parsing or by `datetime.replace` is `none`. -/
def calculate_next_reminder (schedule_type schedule_value : String)
    (now : DateTime) : Option DateTime :=
  if schedule_type = "daily" then
    match parseHM schedule_value with
    | some (h, m) => calcDaily now h m
    | none => none
  else if schedule_type = "weekly" then
    match parseDayTime schedule_value with
    | some (w, h, m) => calcWeekly now w h m
    | none => none
  else
    match parseDayTime schedule_value with
    | some (d, h, m) => calcMonthly now d.toNat h m
    | none => none

/-- One reminder row, with the column names of the `reminders` table and
the `ReminderData` named tuple of `main.py`. -/
structure ReminderData where
  id : Nat
  user_id : Nat
  channel_id : Nat
  chore_name : String
  schedule_type : String
  schedule_value : String
  next_reminder : DateTime
  confirmation_channel_id : Option Nat
  retry_count : Option Nat
  last_message_id : Option Nat
  verification_message_id : Option Nat
deriving DecidableEq

/-- APScheduler job kinds used by the source: job ids are the strings
`reminder_<id>` and `followup_<id>`, modelled as a kind plus the
reminder id. -/
inductive JobKind
  | reminder
  | followup
deriving DecidableEq

/-- One pending APScheduler job: a one-shot timer. -/
structure Job where
  kind : JobKind
  rid : Nat
  run_date : DateTime
deriving DecidableEq

/-- `scheduler.get_job(job_id)`. -/
def getJob (s : List Job) (k : JobKind) (i : Nat) : Option Job :=
  s.find? (fun j => j.kind == k && j.rid == i)

/-- `scheduler.remove_job(job_id)` (restricted to the existing-job case,
which is how the source always calls it). -/
def removeJob (s : List Job) (k : JobKind) (i : Nat) : List Job :=
  s.filter (fun j => !(j.kind == k && j.rid == i))

/-- `scheduler.add_job(..., id=job_id)`: APScheduler raises
`ConflictingIdError` when a job with the same id is already registered
(the source never passes `replace_existing`); that failure is `none`. -/
def addJob (s : List Job) (j : Job) : Option (List Job) :=
  if (getJob s j.kind j.rid).isSome then none else some (s ++ [j])

/-- The `SELECT ... FROM reminders WHERE user_id = ? AND channel_id = ?`
query followed by `fetchone()`: the query has no ORDER BY, and sqlite
returns the rows of such a scan in rowid order, so the first matching
row of the list is taken. -/
def findReminder (rs : List ReminderData) (uid cid : Nat) :
    Option ReminderData :=
  rs.find? (fun r => r.user_id == uid && r.channel_id == cid)

/-- `UPDATE reminders SET ... WHERE id = ?`. -/
def updateById (rs : List ReminderData) (i : Nat)
    (f : ReminderData → ReminderData) : List ReminderData :=
  rs.map (fun r => if r.id = i then f r else r)

/-- Tags for the outbound Discord messages the handler can send, in the
order the source sends them. -/
inductive MsgTag
  | peerRoleMissing
  | verificationPrompt
  | completionError
  | postponeNotice
  | postponeError
  | verifiedNotice
  | verifyError
  | rejectionNotice
  | rejectError
deriving DecidableEq

/-- A reaction event as observed by `on_reaction_add`: the reacted
message (id, channel, author, mentions), the emoji, and the reacting
user (id, bot flag, whether some role is named "peer" case-insensitively).
`guild_has_peer_role` records whether `disnake.utils.get(guild.roles,
name="Peer")` finds a role. -/
structure ReactionEvent where
  message_id : Nat
  channel_id : Nat
  author_id : Nat
  mentions : List Nat
  emoji : String
  reactor_id : Nat
  reactor_is_bot : Bool
  reactor_has_peer_role : Bool
  guild_has_peer_role : Bool
deriving DecidableEq

/-- Result of one `on_reaction_add` invocation: the reminder table, the
scheduler job table, and the messages sent. -/
structure HandlerResult where
  reminders : List ReminderData
  sched : List Job
  sent : List MsgTag
deriving DecidableEq

/-- `main.py` lines 286-510, `on_reaction_add`, translated branch by
branch.  `botId` is `bot.user.id`; `now` stands for the calls to
`datetime.now()` inside the handler (one event is processed at one
second-granularity instant); `freshId` is the Discord id of the one
message whose id the handler stores (`verification_msg` in the thumbs-up
branch, `rejection_msg` in the peer-rejection branch).  Database commits
that precede a failing `add_job` persist, exactly as in the source,
because the raised `ConflictingIdError` is caught by the surrounding
`except` block after the commit. -/
def on_reaction_add (botId : Nat) (now : DateTime) (freshId : Nat)
    (ev : ReactionEvent) (rs : List ReminderData) (sched : List Job) :
    HandlerResult :=
  if ev.reactor_is_bot then ⟨rs, sched, []⟩
  else
    match ev.mentions with
    | [] => ⟨rs, sched, []⟩
    | mentioned :: _ =>
      if ev.reactor_id = mentioned then
        -- lines 301-388: the mentioned assignee reacted
        if ev.author_id ≠ botId then ⟨rs, sched, []⟩
        else
          match findReminder rs mentioned ev.channel_id with
          | none => ⟨rs, sched, []⟩
          | some r =>
            if ev.emoji = "👍" then
              -- lines 319-353: completion claim, start peer verification
              if !ev.guild_has_peer_role then
                ⟨rs, sched, [MsgTag.peerRoleMissing]⟩
              else
                ⟨updateById rs r.id
                    (fun x => { x with verification_message_id := some freshId }),
                  sched, [MsgTag.verificationPrompt]⟩
            else if ev.emoji = "👎" then
              -- lines 355-388: postpone by one hour
              let nr := addSecs now 3600
              let rc := match r.retry_count with
                | some c => c + 1
                | none => 1
              let rs1 := updateById rs r.id
                (fun x => { x with next_reminder := nr, retry_count := some rc })
              match addJob sched ⟨JobKind.reminder, r.id, nr⟩ with
              | some s1 => ⟨rs1, s1, [MsgTag.postponeNotice]⟩
              | none => ⟨rs1, sched, [MsgTag.postponeError]⟩
            else ⟨rs, sched, []⟩
      else if ev.reactor_has_peer_role then
        -- lines 390-501: a peer reacted
        match findReminder rs mentioned ev.channel_id with
        | none => ⟨rs, sched, []⟩
        | some r =>
          if r.verification_message_id ≠ some ev.message_id then
            ⟨rs, sched, []⟩
          else if ev.emoji = "👍" then
            -- lines 404-444: peer confirms completion
            match calculate_next_reminder r.schedule_type r.schedule_value now with
            | none => ⟨rs, sched, [MsgTag.verifyError]⟩
            | some nr =>
              let rs1 := updateById rs r.id
                (fun x => { x with next_reminder := nr, retry_count := some 0,
                                   verification_message_id := none })
              let s1 := removeJob sched JobKind.reminder r.id
              match addJob s1 ⟨JobKind.reminder, r.id, nr⟩ with
              | some s2 => ⟨rs1, s2, [MsgTag.verifiedNotice]⟩
              | none => ⟨rs1, s1, [MsgTag.verifyError]⟩
          else if ev.emoji = "👎" then
            -- lines 446-501: peer rejects completion
            let nr := addSecs now 3600
            let rs1 := updateById rs r.id
              (fun x => { x with next_reminder := nr,
                                 verification_message_id := none,
                                 last_message_id := some freshId })
            let s1 := removeJob sched JobKind.reminder r.id
            let s2 := match addJob s1 ⟨JobKind.reminder, r.id, nr⟩ with
              | some s => s
              | none => s1
            match addJob s2 ⟨JobKind.followup, r.id, nr⟩ with
            | some s3 => ⟨rs1, s3, [MsgTag.rejectionNotice]⟩
            | none => ⟨rs1, s2, [MsgTag.rejectionNotice, MsgTag.rejectError]⟩
          else ⟨rs, sched, []⟩
      else ⟨rs, sched, []⟩

/-- The logical lifecycle states of spec section 4.4, derived from the
row fields: a set verification message id means a peer verification is
outstanding; otherwise a set reminder message id means an assignee
response is awaited; otherwise the reminder is idle. -/
inductive RState
  | idle
  | awaitingSelfReport
  | awaitingPeerVerification
deriving DecidableEq

/-- Field-derived state of one reminder row. -/
def stateOf (r : ReminderData) : RState :=
  if r.verification_message_id.isSome then RState.awaitingPeerVerification
  else if r.last_message_id.isSome then RState.awaitingSelfReport
  else RState.idle


/-! ### Calendar lemmas -/

theorem valid_iff (dt : DateTime) :
    dt.Valid ↔ 1 ≤ dt.year ∧ 1 ≤ dt.month ∧ dt.month ≤ 12 ∧ 1 ≤ dt.day ∧
      dt.day ≤ daysInMonth dt.year dt.month ∧
      dt.hour ≤ 23 ∧ dt.minute ≤ 59 ∧ dt.second ≤ 59 := by
  simp [DateTime.Valid, DateTime.ValidB, Bool.and_eq_true, decide_eq_true_eq,
    and_assoc]

theorem daysInMonth_pos (y m : Nat) : 1 ≤ daysInMonth y m := by
  unfold daysInMonth
  split
  · split <;> omega
  · split <;> omega

theorem daysBeforeMonth_succ (y m : Nat) (hm : 1 ≤ m) :
    daysBeforeMonth y (m + 1) = daysBeforeMonth y m + daysInMonth y m := by
  obtain ⟨k, rfl⟩ : ∃ k, m = k + 1 := ⟨m - 1, by omega⟩
  rfl

theorem leapsBefore_succ (y : Nat) (hy : 1 ≤ y) :
    leapsBefore (y + 1) = leapsBefore y + (if isLeap y then 1 else 0) := by
  rcases h : isLeap y with _ | _
  · have hm : ¬((y % 4 = 0 ∧ y % 100 ≠ 0) ∨ y % 400 = 0) := by
      simpa [isLeap, Bool.or_eq_true, Bool.and_eq_true, beq_iff_eq,
        bne_iff_ne] using h
    simp only [h, Bool.false_eq_true, if_false]
    unfold leapsBefore
    omega
  · have hm : (y % 4 = 0 ∧ y % 100 ≠ 0) ∨ y % 400 = 0 := by
      simpa [isLeap, Bool.or_eq_true, Bool.and_eq_true, beq_iff_eq,
        bne_iff_ne] using h
    simp only [h, if_true]
    unfold leapsBefore
    omega

theorem daysBeforeMonth_twelve (y : Nat) :
    daysBeforeMonth y 12 + 31 = 365 + (if isLeap y then 1 else 0) := by
  have e : daysBeforeMonth y 12 =
      0 + daysInMonth y 1 + daysInMonth y 2 + daysInMonth y 3 +
      daysInMonth y 4 + daysInMonth y 5 + daysInMonth y 6 + daysInMonth y 7 +
      daysInMonth y 8 + daysInMonth y 9 + daysInMonth y 10 +
      daysInMonth y 11 := rfl
  have d2 : daysInMonth y 2 = if isLeap y then 29 else 28 := by
    simp [daysInMonth]
  have dother : daysInMonth y 1 = 31 ∧ daysInMonth y 3 = 31 ∧
      daysInMonth y 4 = 30 ∧ daysInMonth y 5 = 31 ∧ daysInMonth y 6 = 30 ∧
      daysInMonth y 7 = 31 ∧ daysInMonth y 8 = 31 ∧ daysInMonth y 9 = 30 ∧
      daysInMonth y 10 = 31 ∧ daysInMonth y 11 = 30 := by
    norm_num [daysInMonth]
  rcases h : isLeap y <;> simp [h] at d2 ⊢ <;> omega

theorem nextDay_time (dt : DateTime) :
    (nextDay dt).hour = dt.hour ∧ (nextDay dt).minute = dt.minute ∧
      (nextDay dt).second = dt.second := by
  unfold nextDay
  split
  · exact ⟨rfl, rfl, rfl⟩
  · split <;> exact ⟨rfl, rfl, rfl⟩

theorem valid_nextDay (dt : DateTime) (hv : dt.Valid) : (nextDay dt).Valid := by
  rw [valid_iff] at hv ⊢
  unfold nextDay
  split
  · simpa using by omega
  · split
    · have := daysInMonth_pos dt.year (dt.month + 1)
      simpa using by omega
    · have : (1 : Nat) ≤ daysInMonth (dt.year + 1) 1 := daysInMonth_pos _ _
      simpa using by omega

theorem toDays_nextDay (dt : DateTime) (hv : dt.Valid) :
    toDays (nextDay dt) = toDays dt + 1 := by
  rw [valid_iff] at hv
  obtain ⟨hy, hm1, hm2, hd1, hd2, -⟩ := hv
  unfold nextDay
  split
  · simp only [toDays]
    omega
  · rename_i hlt
    split
    · rename_i hmlt
      have hde : dt.day = daysInMonth dt.year dt.month := by omega
      simp only [toDays]
      rw [daysBeforeMonth_succ dt.year dt.month hm1]
      have := daysInMonth_pos dt.year dt.month
      omega
    · rename_i hmge
      have hm12 : dt.month = 12 := by omega
      have hd31 : dt.day = 31 := by
        have : daysInMonth dt.year dt.month = 31 := by
          rw [hm12]; norm_num [daysInMonth]
        omega
      simp only [toDays]
      rw [hm12] at hd2 ⊢
      have h12 := daysBeforeMonth_twelve dt.year
      have hls := leapsBefore_succ dt.year hy
      have hb1 : daysBeforeMonth (dt.year + 1) 1 = 0 := rfl
      rcases h : isLeap dt.year <;> simp [h] at h12 hls <;> omega

theorem addDays_spec (dt : DateTime) (hv : dt.Valid) (n : Nat) :
    (addDays dt n).Valid ∧ toDays (addDays dt n) = toDays dt + n ∧
      (addDays dt n).hour = dt.hour ∧ (addDays dt n).minute = dt.minute ∧
      (addDays dt n).second = dt.second := by
  induction n with
  | zero => exact ⟨hv, rfl, rfl, rfl, rfl⟩
  | succ n ih =>
    obtain ⟨h1, h2, h3, h4, h5⟩ := ih
    have hstep : addDays dt (n + 1) = nextDay (addDays dt n) := rfl
    have ht := nextDay_time (addDays dt n)
    refine ⟨?_, ?_, ?_, ?_, ?_⟩
    · rw [hstep]; exact valid_nextDay _ h1
    · rw [hstep, toDays_nextDay _ h1, h2]; omega
    · rw [hstep, ht.1, h3]
    · rw [hstep, ht.2.1, h4]
    · rw [hstep, ht.2.2, h5]

theorem tod_lt (dt : DateTime) (hv : dt.Valid) :
    dt.hour * 3600 + dt.minute * 60 + dt.second < 86400 := by
  rw [valid_iff] at hv; omega

theorem toSecs_addDays (dt : DateTime) (hv : dt.Valid) (n : Nat) :
    toSecs (addDays dt n) = toSecs dt + n * 86400 := by
  obtain ⟨-, h2, h3, h4, h5⟩ := addDays_spec dt hv n
  simp only [toSecs, h2, h3, h4, h5]
  ring

theorem addSecs_fields (dt : DateTime) (n : Nat) :
    (addSecs dt n).year =
      (addDays dt ((dt.hour * 3600 + dt.minute * 60 + dt.second + n) / 86400)).year ∧
    (addSecs dt n).month =
      (addDays dt ((dt.hour * 3600 + dt.minute * 60 + dt.second + n) / 86400)).month ∧
    (addSecs dt n).day =
      (addDays dt ((dt.hour * 3600 + dt.minute * 60 + dt.second + n) / 86400)).day ∧
    (addSecs dt n).hour =
      (dt.hour * 3600 + dt.minute * 60 + dt.second + n) % 86400 / 3600 ∧
    (addSecs dt n).minute =
      (dt.hour * 3600 + dt.minute * 60 + dt.second + n) % 86400 % 3600 / 60 ∧
    (addSecs dt n).second =
      (dt.hour * 3600 + dt.minute * 60 + dt.second + n) % 86400 % 60 :=
  ⟨rfl, rfl, rfl, rfl, rfl, rfl⟩

theorem toDays_congr (a b : DateTime) (h1 : a.year = b.year)
    (h2 : a.month = b.month) (h3 : a.day = b.day) : toDays a = toDays b := by
  simp [toDays, h1, h2, h3]

theorem addSecs_spec (dt : DateTime) (hv : dt.Valid) (n : Nat) :
    toSecs (addSecs dt n) = toSecs dt + n ∧ (addSecs dt n).Valid := by
  obtain ⟨f1, f2, f3, f4, f5, f6⟩ := addSecs_fields dt n
  obtain ⟨h1, h2, -, -, -⟩ :=
    addDays_spec dt hv ((dt.hour * 3600 + dt.minute * 60 + dt.second + n) / 86400)
  have hdd := toDays_congr (addSecs dt n) _ f1 f2 f3
  rw [valid_iff] at h1
  constructor
  · simp only [toSecs]
    rw [hdd, h2, f4, f5, f6]
    omega
  · rw [valid_iff, f1, f2, f3, f4, f5, f6]
    refine ⟨h1.1, h1.2.1, h1.2.2.1, h1.2.2.2.1, h1.2.2.2.2.1, ?_, ?_, ?_⟩ <;>
      omega

theorem mkDT?_eq_some (y mo d h mi s : Nat)
    (hv : (⟨y, mo, d, h, mi, s⟩ : DateTime).Valid) :
    mkDT? y mo d h mi s = some ⟨y, mo, d, h, mi, s⟩ := by
  have hb : (⟨y, mo, d, h, mi, s⟩ : DateTime).ValidB = true := hv
  simp [mkDT?, hb]

theorem mkDT?_eq_none (y mo d h mi s : Nat)
    (hv : ¬ (⟨y, mo, d, h, mi, s⟩ : DateTime).Valid) :
    mkDT? y mo d h mi s = none := by
  have hb : ¬ (⟨y, mo, d, h, mi, s⟩ : DateTime).ValidB = true := hv
  simp [mkDT?, hb]

theorem mkDT?_some_elim (y mo d h mi s : Nat) (dt : DateTime)
    (hs : mkDT? y mo d h mi s = some dt) :
    dt = ⟨y, mo, d, h, mi, s⟩ ∧ dt.Valid := by
  by_cases hb : (⟨y, mo, d, h, mi, s⟩ : DateTime).Valid
  · rw [mkDT?_eq_some y mo d h mi s hb] at hs
    cases hs
    exact ⟨rfl, hb⟩
  · rw [mkDT?_eq_none y mo d h mi s hb] at hs
    cases hs


/-! ### Schedule Calculator lemmas -/

theorem calc_daily_eq (v : String) (now : DateTime) (h m : Nat)
    (hp : parseHM v = some (h, m)) :
    calculate_next_reminder "daily" v now = calcDaily now h m := by
  simp [calculate_next_reminder, hp]

theorem calc_weekly_eq (v : String) (now : DateTime) (w : Int) (h m : Nat)
    (hp : parseDayTime v = some (w, h, m)) :
    calculate_next_reminder "weekly" v now = calcWeekly now w h m := by
  simp [calculate_next_reminder, hp]

theorem calc_monthly_eq (v : String) (now : DateTime) (d : Int) (h m : Nat)
    (hp : parseDayTime v = some (d, h, m)) :
    calculate_next_reminder "monthly" v now = calcMonthly now d.toNat h m := by
  simp [calculate_next_reminder, hp]

theorem weekday_lt_seven (dt : DateTime) : weekday dt < 7 :=
  Nat.mod_lt _ (by omega)

/-- Core facts about the weekly branch: for a valid target weekday and
time of day, the computed day offset is between 1 and 7, the result
exists, is valid, lands exactly that many days after `now` at the target
time of day, and keeps the seconds of `now`. -/
theorem calcWeekly_spec (now : DateTime) (w : Int) (h m : Nat)
    (hv : now.Valid) (hw0 : 0 ≤ w) (hw6 : w ≤ 6) (hh : h ≤ 23) (hm : m ≤ 59) :
    ∃ next : DateTime, calcWeekly now w h m = some next ∧
      next.Valid ∧
      (toDays next : Int) = (toDays now : Int) +
        (if w - (weekday now : Int) ≤ 0 then w - (weekday now : Int) + 7
         else w - (weekday now : Int)) ∧
      next.hour = h ∧ next.minute = m ∧ next.second = now.second := by
  have hwd := weekday_lt_seven now
  obtain ⟨k, hk, hk1, hk7⟩ : ∃ k : Nat,
      (k : Int) = (if w - (weekday now : Int) ≤ 0 then w - (weekday now : Int) + 7
        else w - (weekday now : Int)) ∧ 1 ≤ k ∧ k ≤ 7 := by
    by_cases hc : w - (weekday now : Int) ≤ 0
    · exact ⟨(w - (weekday now : Int) + 7).toNat,
        by rw [if_pos hc]; omega, by omega, by omega⟩
    · exact ⟨(w - (weekday now : Int)).toNat,
        by rw [if_neg hc]; omega, by omega, by omega⟩
  obtain ⟨sv, sd, sh, smin, ssec⟩ := addDays_spec now hv k
  have hstep : addDaysI now
      (if w - (weekday now : Int) ≤ 0 then w - (weekday now : Int) + 7
       else w - (weekday now : Int)) = addDays now k := by
    rw [← hk]; rfl
  rw [valid_iff] at hv
  rw [valid_iff] at sv
  have hnv : (⟨(addDays now k).year, (addDays now k).month, (addDays now k).day,
      h, m, (addDays now k).second⟩ : DateTime).Valid := by
    rw [valid_iff]
    refine ⟨sv.1, sv.2.1, sv.2.2.1, sv.2.2.2.1, sv.2.2.2.2.1, hh, hm, ?_⟩
    rw [ssec]; exact hv.2.2.2.2.2.2.2
  refine ⟨_, ?_, hnv, ?_, rfl, rfl, ?_⟩
  · simp only [calcWeekly]
    rw [hstep]
    exact mkDT?_eq_some _ _ _ _ _ _ hnv
  · have : toDays (⟨(addDays now k).year, (addDays now k).month,
        (addDays now k).day, h, m, (addDays now k).second⟩ : DateTime) =
        toDays (addDays now k) := toDays_congr _ _ rfl rfl rfl
    rw [this, sd, ← hk]
    omega
  · exact ssec

/-- Claim C2 (confirmed): for a weekly schedule whose target weekday
equals or precedes the current weekday, `calculate_next_reminder` adds
the raw day offset plus a full 7 days, so the result never falls on the
current calendar day, even when the target time of day is still ahead
today. -/
theorem weekly_same_or_earlier_day_rolls_seven
    (now : DateTime) (v : String) (w : Int) (h m : Nat)
    (hv : now.Valid) (hp : parseDayTime v = some (w, h, m))
    (hw0 : 0 ≤ w) (hw6 : w ≤ 6) (hh : h ≤ 23) (hm : m ≤ 59)
    (hz : w - (weekday now : Int) ≤ 0) :
    ∃ next : DateTime, calculate_next_reminder "weekly" v now = some next ∧
      (toDays next : Int) = (toDays now : Int) + (w - (weekday now : Int) + 7) ∧
      ¬(next.year = now.year ∧ next.month = now.month ∧ next.day = now.day) := by
  obtain ⟨next, hc, hnv, htd, -, -, -⟩ := calcWeekly_spec now w h m hv hw0 hw6 hh hm
  rw [if_pos hz] at htd
  refine ⟨next, ?_, htd, ?_⟩
  · rw [calc_weekly_eq v now w h m hp]; exact hc
  · rintro ⟨h1, h2, h3⟩
    have : toDays next = toDays now := toDays_congr _ _ h1 h2 h3
    have hwd := weekday_lt_seven now
    omega

/-- Witness for `weekly_same_or_earlier_day_rolls_seven` at a concrete
input: Monday 2024-01-01 09:00:00, weekly schedule "0,18:00". -/
theorem weekly_same_or_earlier_day_rolls_seven_witness :
    ∃ next : DateTime,
      calculate_next_reminder "weekly" "0,18:00" ⟨2024, 1, 1, 9, 0, 0⟩ = some next ∧
      (toDays next : Int) =
        (toDays (⟨2024, 1, 1, 9, 0, 0⟩ : DateTime) : Int) +
          (0 - (weekday (⟨2024, 1, 1, 9, 0, 0⟩ : DateTime) : Int) + 7) ∧
      ¬(next.year = 2024 ∧ next.month = 1 ∧ next.day = 1) :=
  weekly_same_or_earlier_day_rolls_seven ⟨2024, 1, 1, 9, 0, 0⟩ "0,18:00" 0 18 0
    (by decide) (by decide) (by decide) (by decide) (by decide) (by decide)
    (by decide)


/-- Claim C1 counterexample: at Monday 2024-01-01 10:00:00 the weekly
schedule "0,18:00" (Monday at 18:00) yields 2024-01-08 18:00:00, which
is strictly more than 7 days after now, so the result does not lie in
the claimed interval (now, now + 7 days]. -/
theorem weekly_interval_counterexample :
    calculate_next_reminder "weekly" "0,18:00" ⟨2024, 1, 1, 10, 0, 0⟩ =
      some ⟨2024, 1, 8, 18, 0, 0⟩ ∧
    toSecs (⟨2024, 1, 1, 10, 0, 0⟩ : DateTime) + 7 * 86400 <
      toSecs (⟨2024, 1, 8, 18, 0, 0⟩ : DateTime) := by
  constructor <;> decide

/-- Claim C1 (amended): for every weekly schedule with a valid weekday
(0-6) and valid HH:MM time, and every valid current time now,
`calculate_next_reminder` returns a timestamp that falls on the
specified weekday and lies in the open interval (now, now + 8 days);
the bound now + 7 days of the original claim is exceeded when the
computed day offset is 7 and the target time of day lies after the
current time of day. -/
theorem weekly_next_on_weekday_in_open_eight_days
    (now : DateTime) (v : String) (w : Int) (h m : Nat)
    (hv : now.Valid) (hp : parseDayTime v = some (w, h, m))
    (hw0 : 0 ≤ w) (hw6 : w ≤ 6) (hh : h ≤ 23) (hm : m ≤ 59) :
    ∃ next : DateTime, calculate_next_reminder "weekly" v now = some next ∧
      weekday next = w.toNat ∧
      toSecs now < toSecs next ∧ toSecs next < toSecs now + 8 * 86400 := by
  obtain ⟨next, hc, hnv, htd, hhh, hmm, hss⟩ :=
    calcWeekly_spec now w h m hv hw0 hw6 hh hm
  have hwd := weekday_lt_seven now
  have htod := tod_lt now hv
  have hkey : ∃ k : Nat, 1 ≤ k ∧ k ≤ 7 ∧ toDays next = toDays now + k ∧
      (toDays now + k) % 7 = w.toNat := by
    by_cases hc2 : w - (weekday now : Int) ≤ 0
    · rw [if_pos hc2] at htd
      refine ⟨(w - (weekday now : Int) + 7).toNat, by omega, by omega,
        by omega, ?_⟩
      unfold weekday at *
      omega
    · rw [if_neg hc2] at htd
      refine ⟨(w - (weekday now : Int)).toNat, by omega, by omega,
        by omega, ?_⟩
      unfold weekday at *
      omega
  obtain ⟨k, hk1, hk7, hkd, hkw⟩ := hkey
  rw [valid_iff] at hv
  refine ⟨next, by rw [calc_weekly_eq v now w h m hp]; exact hc, ?_, ?_, ?_⟩
  · unfold weekday
    rw [hkd]
    exact hkw
  · simp only [toSecs]
    rw [hkd, hhh, hmm, hss]
    omega
  · simp only [toSecs]
    rw [hkd, hhh, hmm, hss]
    omega

/-- Witness for `weekly_next_on_weekday_in_open_eight_days` at the
concrete input Wednesday 2024-05-15 12:00:00 with schedule "2,07:30". -/
theorem weekly_next_on_weekday_in_open_eight_days_witness :
    ∃ next : DateTime,
      calculate_next_reminder "weekly" "2,07:30" ⟨2024, 5, 15, 12, 0, 0⟩ =
        some next ∧
      weekday next = (2 : Int).toNat ∧
      toSecs (⟨2024, 5, 15, 12, 0, 0⟩ : DateTime) < toSecs next ∧
      toSecs next < toSecs (⟨2024, 5, 15, 12, 0, 0⟩ : DateTime) + 8 * 86400 :=
  weekly_next_on_weekday_in_open_eight_days ⟨2024, 5, 15, 12, 0, 0⟩ "2,07:30"
    2 7 30 (by decide) (by decide) (by decide) (by decide) (by decide)
    (by decide)

/-- Core facts about the daily branch: for a valid HH:MM target time the
result exists, is strictly in the future, and at most 24 hours ahead. -/
theorem calcDaily_spec (now : DateTime) (h m : Nat)
    (hv : now.Valid) (hh : h ≤ 23) (hm : m ≤ 59) :
    ∃ next : DateTime, calcDaily now h m = some next ∧
      toSecs now < toSecs next ∧ toSecs next ≤ toSecs now + 86400 := by
  have hnv : (⟨now.year, now.month, now.day, h, m, now.second⟩ : DateTime).Valid := by
    rw [valid_iff] at hv ⊢
    exact ⟨hv.1, hv.2.1, hv.2.2.1, hv.2.2.2.1, hv.2.2.2.2.1, hh, hm,
      hv.2.2.2.2.2.2.2⟩
  have hmk := mkDT?_eq_some now.year now.month now.day h m now.second hnv
  have htdc : toDays (⟨now.year, now.month, now.day, h, m, now.second⟩ : DateTime) =
      toDays now := toDays_congr _ _ rfl rfl rfl
  have hcur : toSecs (⟨now.year, now.month, now.day, h, m, now.second⟩ : DateTime) =
      toDays now * 86400 + (h * 3600 + m * 60 + now.second) := by
    simp only [toSecs, htdc]
    omega
  have hnow : toSecs now =
      toDays now * 86400 + (now.hour * 3600 + now.minute * 60 + now.second) := by
    simp only [toSecs]
    omega
  have htod := tod_lt now hv
  simp only [calcDaily, hmk]
  by_cases hle : toSecs (⟨now.year, now.month, now.day, h, m, now.second⟩ : DateTime) ≤
      toSecs now
  · rw [if_pos hle]
    refine ⟨_, rfl, ?_, ?_⟩ <;>
      rw [toSecs_addDays _ hnv 1] <;> omega
  · rw [if_neg hle]
    rw [valid_iff] at hv
    refine ⟨_, rfl, by omega, ?_⟩
    omega

/-- Claim C3 (confirmed): for every daily schedule with a valid HH:MM
time and every valid current time now, `calculate_next_reminder` returns
a timestamp strictly greater than now and at most 24 hours after now;
in particular, for target time 18:00 with now = 2024-01-01T10:00:00 it
returns 2024-01-01T18:00:00, and with now = 2024-01-01T19:00:00 it
returns 2024-01-02T18:00:00. -/
theorem daily_next_strictly_future_within_24h :
    (∀ (now : DateTime) (v : String) (h m : Nat),
      now.Valid → parseHM v = some (h, m) → h ≤ 23 → m ≤ 59 →
      ∃ next : DateTime, calculate_next_reminder "daily" v now = some next ∧
        toSecs now < toSecs next ∧ toSecs next ≤ toSecs now + 86400) ∧
    calculate_next_reminder "daily" "18:00" ⟨2024, 1, 1, 10, 0, 0⟩ =
      some ⟨2024, 1, 1, 18, 0, 0⟩ ∧
    calculate_next_reminder "daily" "18:00" ⟨2024, 1, 1, 19, 0, 0⟩ =
      some ⟨2024, 1, 2, 18, 0, 0⟩ := by
  refine ⟨?_, by decide, by decide⟩
  intro now v h m hv hp hh hm
  rw [calc_daily_eq v now h m hp]
  exact calcDaily_spec now h m hv hh hm

/-- Witness for the universally quantified part of
`daily_next_strictly_future_within_24h` at now = 2024-01-01 10:00:00
with schedule "18:00". -/
theorem daily_next_strictly_future_within_24h_witness :
    ∃ next : DateTime,
      calculate_next_reminder "daily" "18:00" ⟨2024, 1, 1, 10, 0, 0⟩ =
        some next ∧
      toSecs (⟨2024, 1, 1, 10, 0, 0⟩ : DateTime) < toSecs next ∧
      toSecs next ≤ toSecs (⟨2024, 1, 1, 10, 0, 0⟩ : DateTime) + 86400 :=
  daily_next_strictly_future_within_24h.1 ⟨2024, 1, 1, 10, 0, 0⟩ "18:00" 18 0
    (by decide) (by decide) (by decide) (by decide)


theorem daysInMonth_le (y m : Nat) : daysInMonth y m ≤ 31 := by
  unfold daysInMonth
  split
  · split <;> omega
  · split <;> omega

theorem valid_mk (y mo d h mi s : Nat) :
    (⟨y, mo, d, h, mi, s⟩ : DateTime).Valid ↔
      1 ≤ y ∧ 1 ≤ mo ∧ mo ≤ 12 ∧ 1 ≤ d ∧ d ≤ daysInMonth y mo ∧
      h ≤ 23 ∧ mi ≤ 59 ∧ s ≤ 59 :=
  valid_iff _

/-- Claim C4 counterexample: at 2024-01-31 19:00:00 the monthly schedule
"31,18:00" has already passed for the current month, but instead of
rolling to day 31 of the next month, the calculator raises a calendar
error (February has no day 31), modelled as `none`. -/
theorem monthly_rollover_invalid_day_counterexample :
    calculate_next_reminder "monthly" "31,18:00" ⟨2024, 1, 31, 19, 0, 0⟩ =
      none := by
  decide

/-- Claim C4 (amended): for every monthly schedule whose day-of-month
exists in the current month, `calculate_next_reminder` targets the given
day-of-month at HH:MM in the current month; if that occurrence has
already passed (or equals now), it rolls to the same day-of-month in the
next month — with the year incremented and the month set to January when
the current month is December — provided the day-of-month exists in the
target month, and otherwise propagates a calendar error (no result). -/
theorem monthly_next_characterization
    (now : DateTime) (v : String) (d : Int) (h m : Nat)
    (hv : now.Valid) (hp : parseDayTime v = some (d, h, m))
    (hd1 : 1 ≤ d) (hdm : d.toNat ≤ daysInMonth now.year now.month)
    (hh : h ≤ 23) (hm : m ≤ 59) :
    (toSecs now <
        toSecs (⟨now.year, now.month, d.toNat, h, m, now.second⟩ : DateTime) →
      calculate_next_reminder "monthly" v now =
        some ⟨now.year, now.month, d.toNat, h, m, now.second⟩) ∧
    (toSecs (⟨now.year, now.month, d.toNat, h, m, now.second⟩ : DateTime) ≤
        toSecs now →
      (now.month = 12 →
        calculate_next_reminder "monthly" v now =
          some ⟨now.year + 1, 1, d.toNat, h, m, now.second⟩) ∧
      (now.month ≠ 12 → d.toNat ≤ daysInMonth now.year (now.month + 1) →
        calculate_next_reminder "monthly" v now =
          some ⟨now.year, now.month + 1, d.toNat, h, m, now.second⟩) ∧
      (now.month ≠ 12 → daysInMonth now.year (now.month + 1) < d.toNat →
        calculate_next_reminder "monthly" v now = none)) := by
  rw [calc_monthly_eq v now d h m hp]
  have hvv := hv
  rw [valid_iff] at hvv
  have hnv : (⟨now.year, now.month, d.toNat, h, m, now.second⟩ : DateTime).Valid := by
    rw [valid_mk]
    exact ⟨hvv.1, hvv.2.1, hvv.2.2.1, by omega, hdm, hh, hm,
      hvv.2.2.2.2.2.2.2⟩
  have hmk := mkDT?_eq_some now.year now.month d.toNat h m now.second hnv
  simp only [calcMonthly, hmk]
  constructor
  · intro hlt
    rw [if_neg (by omega)]
  · intro hle
    rw [if_pos hle]
    refine ⟨?_, ?_, ?_⟩
    · intro h12
      rw [if_pos h12]
      apply mkDT?_eq_some
      rw [valid_mk]
      have h31 : daysInMonth (now.year + 1) 1 = 31 := by
        norm_num [daysInMonth]
      have := daysInMonth_le now.year now.month
      exact ⟨by omega, by omega, by omega, by omega, by omega, hh, hm,
        hvv.2.2.2.2.2.2.2⟩
    · intro h12 hfit
      rw [if_neg h12]
      apply mkDT?_eq_some
      rw [valid_mk]
      exact ⟨hvv.1, by omega, by omega, by omega, hfit, hh, hm,
        hvv.2.2.2.2.2.2.2⟩
    · intro h12 hover
      rw [if_neg h12]
      apply mkDT?_eq_none
      rw [valid_mk]
      intro hcon
      have := hcon.2.2.2.2.1
      omega

/-- Witness for `monthly_next_characterization` at 2024-03-10 20:00:00
with schedule "15,09:00": the 15th at 09:00 is still ahead, so the
result stays in March. -/
theorem monthly_next_characterization_witness :
    (toSecs (⟨2024, 3, 10, 20, 0, 0⟩ : DateTime) <
        toSecs (⟨2024, 3, (15 : Int).toNat, 9, 0, 0⟩ : DateTime) →
      calculate_next_reminder "monthly" "15,09:00" ⟨2024, 3, 10, 20, 0, 0⟩ =
        some ⟨2024, 3, (15 : Int).toNat, 9, 0, 0⟩) ∧
    (toSecs (⟨2024, 3, (15 : Int).toNat, 9, 0, 0⟩ : DateTime) ≤
        toSecs (⟨2024, 3, 10, 20, 0, 0⟩ : DateTime) →
      ((3 : Nat) = 12 →
        calculate_next_reminder "monthly" "15,09:00" ⟨2024, 3, 10, 20, 0, 0⟩ =
          some ⟨2024 + 1, 1, (15 : Int).toNat, 9, 0, 0⟩) ∧
      ((3 : Nat) ≠ 12 → (15 : Int).toNat ≤ daysInMonth 2024 (3 + 1) →
        calculate_next_reminder "monthly" "15,09:00" ⟨2024, 3, 10, 20, 0, 0⟩ =
          some ⟨2024, 3 + 1, (15 : Int).toNat, 9, 0, 0⟩) ∧
      ((3 : Nat) ≠ 12 → daysInMonth 2024 (3 + 1) < (15 : Int).toNat →
        calculate_next_reminder "monthly" "15,09:00" ⟨2024, 3, 10, 20, 0, 0⟩ =
          none)) :=
  monthly_next_characterization ⟨2024, 3, 10, 20, 0, 0⟩ "15,09:00" 15 9 0
    (by decide) (by decide) (by decide) (by decide) (by decide) (by decide)


/-! ### Job table lemmas -/

theorem getJob_removeJob_self (s : List Job) (k : JobKind) (i : Nat) :
    getJob (removeJob s k i) k i = none := by
  simp only [getJob, removeJob, List.find?_eq_none]
  intro j hj
  have h2 := (List.mem_filter.mp hj).2
  simp only [Bool.not_eq_true'] at h2
  simp [h2]

theorem getJob_removeJob_of_ne (s : List Job) (k : JobKind) (i : Nat)
    (k2 : JobKind) (i2 : Nat) (hne : ¬(k2 = k ∧ i2 = i)) :
    getJob (removeJob s k i) k2 i2 = getJob s k2 i2 := by
  unfold getJob removeJob
  induction s with
  | nil => rfl
  | cons j js ih =>
    by_cases h2 : (j.kind == k2 && j.rid == i2) = true <;>
      by_cases h1 : (j.kind == k && j.rid == i) = true
    · exfalso
      simp only [Bool.and_eq_true, beq_iff_eq] at h1 h2
      exact hne ⟨by rw [← h2.1, h1.1], by rw [← h2.2, h1.2]⟩
    · rw [Bool.not_eq_true] at h1
      simp only [List.filter_cons, List.find?_cons, h1, h2, Bool.not_false,
        eq_self_iff_true, if_true]
    · rw [Bool.not_eq_true] at h2
      simp only [List.filter_cons, List.find?_cons, h1, h2, Bool.not_true,
        Bool.false_eq_true, if_false]
      exact ih
    · rw [Bool.not_eq_true] at h1 h2
      simp only [List.filter_cons, List.find?_cons, h1, h2, Bool.not_false,
        eq_self_iff_true, if_true]
      exact ih

theorem getJob_append_single (s : List Job) (j : Job) (k : JobKind) (i : Nat) :
    getJob (s ++ [j]) k i = (getJob s k i).or
      (if (j.kind == k && j.rid == i) = true then some j else none) := by
  unfold getJob
  by_cases h : (j.kind == k && j.rid == i) = true <;>
    simp [List.find?_append, h]


/-! ### Lifecycle claims: postpone (C5) -/

/-- Claim C5 counterexample fixture: a reminder in AwaitingSelfReport
whose reminder-kind job is still registered — exactly the configuration
the code itself produces after a peer rejection (lines 474-485) — at
2024-01-01 09:00:00. -/
def rC5 : ReminderData :=
  ⟨1, 10, 100, "dishes", "daily", "18:00", ⟨2024, 1, 1, 9, 0, 0⟩, none,
    some 2, some 500, none⟩

/-- Claim C5 counterexample fixture: the assignee (user 10) reacts with
thumbs down on the reminder message 500 in channel 100; the message
author is the bot (id 99). -/
def evC5 : ReactionEvent := ⟨500, 100, 99, [10], "👎", 10, false, false, true⟩

/-- Claim C5 counterexample fixture: the already-registered reminder job. -/
def jC5 : Job := ⟨JobKind.reminder, 1, ⟨2024, 1, 1, 9, 0, 0⟩⟩

/-- Claim C5 counterexample: with a reminder-kind job already registered
for the reminder, the postpone reaction commits the database update
(retry_count 2 to 3, next_fire_at = now + 1h) but `add_job` raises
`ConflictingIdError`, so the job table is left unchanged: no
reminder-kind job is (re)scheduled at now + 1 hour, refuting the claim
as stated. -/
theorem postpone_existing_job_counterexample :
    stateOf rC5 = RState.awaitingSelfReport ∧
    rC5.last_message_id = some evC5.message_id ∧
    rC5.retry_count = some 2 ∧
    (on_reaction_add 99 ⟨2024, 1, 1, 10, 0, 0⟩ 600 evC5 [rC5] [jC5]).reminders =
      [⟨1, 10, 100, "dishes", "daily", "18:00", ⟨2024, 1, 1, 11, 0, 0⟩, none,
        some 3, some 500, none⟩] ∧
    (on_reaction_add 99 ⟨2024, 1, 1, 10, 0, 0⟩ 600 evC5 [rC5] [jC5]).sched =
      [jC5] ∧
    jC5.run_date ≠ addSecs ⟨2024, 1, 1, 10, 0, 0⟩ 3600 ∧
    (on_reaction_add 99 ⟨2024, 1, 1, 10, 0, 0⟩ 600 evC5 [rC5] [jC5]).sent =
      [MsgTag.postponeError] := by
  decide

/-- Claim C5 (amended): for every reminder in the AwaitingSelfReport
state, when the assignee reacts "postpone" (thumbs down) on the
reminder message, the handler increments retry_count by exactly 1,
sets next_fire_at to now plus 1 hour, and the reminder remains in
AwaitingSelfReport; the reminder-kind job is (re)scheduled at now plus
1 hour only when no reminder-kind job for this reminder is currently
registered — when one is registered (as after a peer rejection), the
scheduler raises a conflict that is caught after the database commit,
leaving the job table unchanged and sending an error notice instead. -/
theorem postpone_updates_and_conditional_reschedule
    (botId freshId : Nat) (now : DateTime) (ev : ReactionEvent)
    (rs : List ReminderData) (sched : List Job) (r : ReminderData)
    (u : Nat) (rest : List Nat) (c : Nat)
    (hbot : ev.reactor_is_bot = false)
    (hmen : ev.mentions = u :: rest)
    (hrid : ev.reactor_id = u)
    (haut : ev.author_id = botId)
    (hfind : findReminder rs u ev.channel_id = some r)
    (hemo : ev.emoji = "👎")
    (hrc : r.retry_count = some c)
    (_hmsg : r.last_message_id = some ev.message_id)
    (hst : stateOf r = RState.awaitingSelfReport) :
    (on_reaction_add botId now freshId ev rs sched).reminders =
      updateById rs r.id (fun x =>
        { x with next_reminder := addSecs now 3600,
                 retry_count := some (c + 1) }) ∧
    (now.Valid → toSecs (addSecs now 3600) = toSecs now + 3600) ∧
    (getJob sched JobKind.reminder r.id = none →
      (on_reaction_add botId now freshId ev rs sched).sched =
        sched ++ [⟨JobKind.reminder, r.id, addSecs now 3600⟩] ∧
      (on_reaction_add botId now freshId ev rs sched).sent =
        [MsgTag.postponeNotice]) ∧
    (∀ j : Job, getJob sched JobKind.reminder r.id = some j →
      (on_reaction_add botId now freshId ev rs sched).sched = sched ∧
      (on_reaction_add botId now freshId ev rs sched).sent =
        [MsgTag.postponeError]) ∧
    stateOf { r with next_reminder := addSecs now 3600,
                     retry_count := some (c + 1) } =
      RState.awaitingSelfReport := by
  subst hrid
  subst haut
  have hmain1 : getJob sched JobKind.reminder r.id = none →
      on_reaction_add ev.author_id now freshId ev rs sched =
        ⟨updateById rs r.id (fun x =>
            { x with next_reminder := addSecs now 3600,
                     retry_count := some (c + 1) }),
          sched ++ [⟨JobKind.reminder, r.id, addSecs now 3600⟩],
          [MsgTag.postponeNotice]⟩ := by
    intro hgj
    simp [on_reaction_add, hbot, hmen, hfind, hemo, hrc, addJob, hgj]
  have hmain2 : ∀ j : Job, getJob sched JobKind.reminder r.id = some j →
      on_reaction_add ev.author_id now freshId ev rs sched =
        ⟨updateById rs r.id (fun x =>
            { x with next_reminder := addSecs now 3600,
                     retry_count := some (c + 1) }),
          sched, [MsgTag.postponeError]⟩ := by
    intro j hgj
    simp [on_reaction_add, hbot, hmen, hfind, hemo, hrc, addJob, hgj]
  refine ⟨?_, fun hv => (addSecs_spec now hv 3600).1, ?_, ?_, ?_⟩
  · rcases hgj : getJob sched JobKind.reminder r.id with - | j
    · rw [hmain1 hgj]
    · rw [hmain2 j hgj]
  · intro hgj
    rw [hmain1 hgj]
    exact ⟨rfl, rfl⟩
  · intro j hgj
    rw [hmain2 j hgj]
    exact ⟨rfl, rfl⟩
  · exact hst

/-- Witness for `postpone_updates_and_conditional_reschedule` at the
concrete fixture state with an empty job table. -/
theorem postpone_updates_and_conditional_reschedule_witness :
    (on_reaction_add 99 ⟨2024, 1, 1, 10, 0, 0⟩ 600 evC5 [rC5] []).reminders =
      updateById [rC5] rC5.id (fun x =>
        { x with next_reminder := addSecs ⟨2024, 1, 1, 10, 0, 0⟩ 3600,
                 retry_count := some (2 + 1) }) ∧
    ((⟨2024, 1, 1, 10, 0, 0⟩ : DateTime).Valid →
      toSecs (addSecs ⟨2024, 1, 1, 10, 0, 0⟩ 3600) =
        toSecs ⟨2024, 1, 1, 10, 0, 0⟩ + 3600) ∧
    (getJob [] JobKind.reminder rC5.id = none →
      (on_reaction_add 99 ⟨2024, 1, 1, 10, 0, 0⟩ 600 evC5 [rC5] []).sched =
        [] ++ [⟨JobKind.reminder, rC5.id, addSecs ⟨2024, 1, 1, 10, 0, 0⟩ 3600⟩] ∧
      (on_reaction_add 99 ⟨2024, 1, 1, 10, 0, 0⟩ 600 evC5 [rC5] []).sent =
        [MsgTag.postponeNotice]) ∧
    (∀ j : Job, getJob [] JobKind.reminder rC5.id = some j →
      (on_reaction_add 99 ⟨2024, 1, 1, 10, 0, 0⟩ 600 evC5 [rC5] []).sched = [] ∧
      (on_reaction_add 99 ⟨2024, 1, 1, 10, 0, 0⟩ 600 evC5 [rC5] []).sent =
        [MsgTag.postponeError]) ∧
    stateOf { rC5 with next_reminder := addSecs ⟨2024, 1, 1, 10, 0, 0⟩ 3600,
                       retry_count := some (2 + 1) } =
      RState.awaitingSelfReport :=
  postpone_updates_and_conditional_reschedule 99 600 ⟨2024, 1, 1, 10, 0, 0⟩
    evC5 [rC5] [] rC5 10 [] 2 (by decide) (by decide) (by decide) (by decide)
    (by decide) (by decide) (by decide) (by decide) (by decide)


/-! ### Lifecycle claims: peer rejection (C6) -/

/-- Claim C6 counterexample fixture: a reminder awaiting peer
verification (message 700) whose followup-kind job is still registered
— the configuration reached when a previous rejection happened less
than an hour ago and the assignee has already claimed completion
again. -/
def rC6 : ReminderData :=
  ⟨1, 10, 100, "dishes", "daily", "18:00", ⟨2024, 1, 1, 9, 0, 0⟩, none,
    some 1, some 500, some 700⟩

/-- Claim C6 counterexample fixture: a peer (user 20, with the peer
role) reacts with thumbs down on the verification message 700. -/
def evC6 : ReactionEvent := ⟨700, 100, 99, [10], "👎", 20, false, true, true⟩

/-- Claim C6 counterexample fixture: the still-registered followup job
from the previous rejection. -/
def jC6 : Job := ⟨JobKind.followup, 1, ⟨2024, 1, 1, 9, 30, 0⟩⟩

/-- Claim C6 counterexample: with a followup-kind job already
registered, the peer rejection commits every database update and
re-registers the reminder-kind job, but the final `add_job` for the
followup raises `ConflictingIdError`, so no followup-kind job is
scheduled at now + 1 hour: the stale followup job stays at its old
time, refuting that part of the claim. -/
theorem reject_existing_followup_counterexample :
    stateOf rC6 = RState.awaitingPeerVerification ∧
    rC6.verification_message_id = some evC6.message_id ∧
    (on_reaction_add 99 ⟨2024, 1, 1, 10, 0, 0⟩ 601 evC6 [rC6] [jC6]).sched =
      [jC6, ⟨JobKind.reminder, 1, ⟨2024, 1, 1, 11, 0, 0⟩⟩] ∧
    getJob (on_reaction_add 99 ⟨2024, 1, 1, 10, 0, 0⟩ 601 evC6 [rC6] [jC6]).sched
        JobKind.followup 1 = some jC6 ∧
    jC6.run_date ≠ addSecs ⟨2024, 1, 1, 10, 0, 0⟩ 3600 ∧
    (on_reaction_add 99 ⟨2024, 1, 1, 10, 0, 0⟩ 601 evC6 [rC6] [jC6]).sent =
      [MsgTag.rejectionNotice, MsgTag.rejectError] := by
  decide

/-- Claim C6 (amended): for every reminder in the AwaitingPeerVerification
state, when a peer reacts "reject" on the exact recorded verification
message, the engine sends the rejection+reminder message, sets
next_fire_at to now plus 1 hour, clears pending_verification_message_id
(recording the rejection message id as the new pending reminder
message), and (re)schedules the reminder-kind job at now + 1 hour,
leaving the reminder in AwaitingSelfReport; the one-shot followup-kind
job is additionally scheduled at now + 1 hour only when no followup-kind
job for this reminder is currently registered — when one is, the
scheduler raises a conflict that is caught, the stale followup job is
left in place, and an error notice is sent. -/
theorem reject_updates_reschedules_and_conditional_followup
    (botId freshId : Nat) (now : DateTime) (ev : ReactionEvent)
    (rs : List ReminderData) (sched : List Job) (r : ReminderData)
    (u : Nat) (rest : List Nat)
    (hbot : ev.reactor_is_bot = false)
    (hmen : ev.mentions = u :: rest)
    (hrne : ev.reactor_id ≠ u)
    (hpeer : ev.reactor_has_peer_role = true)
    (hfind : findReminder rs u ev.channel_id = some r)
    (hvm : r.verification_message_id = some ev.message_id)
    (hemo : ev.emoji = "👎") :
    (on_reaction_add botId now freshId ev rs sched).reminders =
      updateById rs r.id (fun x =>
        { x with next_reminder := addSecs now 3600,
                 verification_message_id := none,
                 last_message_id := some freshId }) ∧
    (now.Valid → toSecs (addSecs now 3600) = toSecs now + 3600) ∧
    getJob (on_reaction_add botId now freshId ev rs sched).sched
        JobKind.reminder r.id =
      some ⟨JobKind.reminder, r.id, addSecs now 3600⟩ ∧
    (getJob sched JobKind.followup r.id = none →
      getJob (on_reaction_add botId now freshId ev rs sched).sched
          JobKind.followup r.id =
        some ⟨JobKind.followup, r.id, addSecs now 3600⟩ ∧
      (on_reaction_add botId now freshId ev rs sched).sent =
        [MsgTag.rejectionNotice]) ∧
    (∀ j : Job, getJob sched JobKind.followup r.id = some j →
      getJob (on_reaction_add botId now freshId ev rs sched).sched
          JobKind.followup r.id = some j ∧
      (on_reaction_add botId now freshId ev rs sched).sent =
        [MsgTag.rejectionNotice, MsgTag.rejectError]) ∧
    stateOf { r with next_reminder := addSecs now 3600,
                     verification_message_id := none,
                     last_message_id := some freshId } =
      RState.awaitingSelfReport := by
  have h1 : addJob (removeJob sched JobKind.reminder r.id)
      ⟨JobKind.reminder, r.id, addSecs now 3600⟩ =
      some (removeJob sched JobKind.reminder r.id ++
        [⟨JobKind.reminder, r.id, addSecs now 3600⟩]) := by
    simp [addJob, getJob_removeJob_self]
  have hr2 : getJob (removeJob sched JobKind.reminder r.id ++
      [⟨JobKind.reminder, r.id, addSecs now 3600⟩]) JobKind.reminder r.id =
      some ⟨JobKind.reminder, r.id, addSecs now 3600⟩ := by
    rw [getJob_append_single]
    simp [getJob_removeJob_self, Option.or]
  have hf2 : getJob (removeJob sched JobKind.reminder r.id ++
      [⟨JobKind.reminder, r.id, addSecs now 3600⟩]) JobKind.followup r.id =
      getJob sched JobKind.followup r.id := by
    rw [getJob_append_single]
    rw [getJob_removeJob_of_ne _ _ _ _ _ (by simp)]
    simp [Option.or]
    cases getJob sched JobKind.followup r.id <;> rfl
  rcases hgf : getJob sched JobKind.followup r.id with - | j
  · have h2 : addJob (removeJob sched JobKind.reminder r.id ++
        [⟨JobKind.reminder, r.id, addSecs now 3600⟩])
        ⟨JobKind.followup, r.id, addSecs now 3600⟩ =
        some ((removeJob sched JobKind.reminder r.id ++
          [⟨JobKind.reminder, r.id, addSecs now 3600⟩]) ++
          [⟨JobKind.followup, r.id, addSecs now 3600⟩]) := by
      simp [addJob, hf2, hgf]
    have hres : on_reaction_add botId now freshId ev rs sched =
        ⟨updateById rs r.id (fun x =>
            { x with next_reminder := addSecs now 3600,
                     verification_message_id := none,
                     last_message_id := some freshId }),
          (removeJob sched JobKind.reminder r.id ++
            [⟨JobKind.reminder, r.id, addSecs now 3600⟩]) ++
            [⟨JobKind.followup, r.id, addSecs now 3600⟩],
          [MsgTag.rejectionNotice]⟩ := by
      simp [on_reaction_add, hbot, hmen, hrne, hpeer, hfind, hvm, hemo,
        h1, h2]
    have hrem : (on_reaction_add botId now freshId ev rs sched).reminders =
        updateById rs r.id (fun x =>
          { x with next_reminder := addSecs now 3600,
                   verification_message_id := none,
                   last_message_id := some freshId }) := by rw [hres]
    have hsched : (on_reaction_add botId now freshId ev rs sched).sched =
        (removeJob sched JobKind.reminder r.id ++
          [⟨JobKind.reminder, r.id, addSecs now 3600⟩]) ++
          [⟨JobKind.followup, r.id, addSecs now 3600⟩] := by rw [hres]
    have hsent : (on_reaction_add botId now freshId ev rs sched).sent =
        [MsgTag.rejectionNotice] := by rw [hres]
    refine ⟨hrem, fun hv => (addSecs_spec now hv 3600).1, ?_, ?_, ?_, rfl⟩
    · rw [hsched, getJob_append_single]
      simp [hr2, Option.or]
    · intro _
      refine ⟨?_, hsent⟩
      rw [hsched, getJob_append_single]
      simp [hf2, hgf, Option.or]
    · intro j2 hj2
      cases hj2
  · have h2 : addJob (removeJob sched JobKind.reminder r.id ++
        [⟨JobKind.reminder, r.id, addSecs now 3600⟩])
        ⟨JobKind.followup, r.id, addSecs now 3600⟩ = none := by
      simp [addJob, hf2, hgf]
    have hres : on_reaction_add botId now freshId ev rs sched =
        ⟨updateById rs r.id (fun x =>
            { x with next_reminder := addSecs now 3600,
                     verification_message_id := none,
                     last_message_id := some freshId }),
          removeJob sched JobKind.reminder r.id ++
            [⟨JobKind.reminder, r.id, addSecs now 3600⟩],
          [MsgTag.rejectionNotice, MsgTag.rejectError]⟩ := by
      simp [on_reaction_add, hbot, hmen, hrne, hpeer, hfind, hvm, hemo,
        h1, h2]
    have hrem : (on_reaction_add botId now freshId ev rs sched).reminders =
        updateById rs r.id (fun x =>
          { x with next_reminder := addSecs now 3600,
                   verification_message_id := none,
                   last_message_id := some freshId }) := by rw [hres]
    have hsched : (on_reaction_add botId now freshId ev rs sched).sched =
        removeJob sched JobKind.reminder r.id ++
          [⟨JobKind.reminder, r.id, addSecs now 3600⟩] := by rw [hres]
    have hsent : (on_reaction_add botId now freshId ev rs sched).sent =
        [MsgTag.rejectionNotice, MsgTag.rejectError] := by rw [hres]
    refine ⟨hrem, fun hv => (addSecs_spec now hv 3600).1, ?_, ?_, ?_, rfl⟩
    · rw [hsched]
      exact hr2
    · intro hcon
      cases hcon
    · intro j2 hj2
      injection hj2 with he
      subst he
      exact ⟨by rw [hsched]; exact hf2.trans hgf, hsent⟩

/-- Witness for `reject_updates_reschedules_and_conditional_followup`
at the concrete fixture state with an empty job table. -/
theorem reject_updates_reschedules_witness :
    (on_reaction_add 99 ⟨2024, 1, 1, 10, 0, 0⟩ 601 evC6 [rC6] []).reminders =
      updateById [rC6] rC6.id (fun x =>
        { x with next_reminder := addSecs ⟨2024, 1, 1, 10, 0, 0⟩ 3600,
                 verification_message_id := none,
                 last_message_id := some 601 }) ∧
    ((⟨2024, 1, 1, 10, 0, 0⟩ : DateTime).Valid →
      toSecs (addSecs ⟨2024, 1, 1, 10, 0, 0⟩ 3600) =
        toSecs ⟨2024, 1, 1, 10, 0, 0⟩ + 3600) ∧
    getJob (on_reaction_add 99 ⟨2024, 1, 1, 10, 0, 0⟩ 601 evC6 [rC6] []).sched
        JobKind.reminder rC6.id =
      some ⟨JobKind.reminder, rC6.id, addSecs ⟨2024, 1, 1, 10, 0, 0⟩ 3600⟩ ∧
    (getJob [] JobKind.followup rC6.id = none →
      getJob (on_reaction_add 99 ⟨2024, 1, 1, 10, 0, 0⟩ 601 evC6 [rC6] []).sched
          JobKind.followup rC6.id =
        some ⟨JobKind.followup, rC6.id, addSecs ⟨2024, 1, 1, 10, 0, 0⟩ 3600⟩ ∧
      (on_reaction_add 99 ⟨2024, 1, 1, 10, 0, 0⟩ 601 evC6 [rC6] []).sent =
        [MsgTag.rejectionNotice]) ∧
    (∀ j : Job, getJob [] JobKind.followup rC6.id = some j →
      getJob (on_reaction_add 99 ⟨2024, 1, 1, 10, 0, 0⟩ 601 evC6 [rC6] []).sched
          JobKind.followup rC6.id = some j ∧
      (on_reaction_add 99 ⟨2024, 1, 1, 10, 0, 0⟩ 601 evC6 [rC6] []).sent =
        [MsgTag.rejectionNotice, MsgTag.rejectError]) ∧
    stateOf { rC6 with next_reminder := addSecs ⟨2024, 1, 1, 10, 0, 0⟩ 3600,
                       verification_message_id := none,
                       last_message_id := some 601 } =
      RState.awaitingSelfReport :=
  reject_updates_reschedules_and_conditional_followup 99 601
    ⟨2024, 1, 1, 10, 0, 0⟩ evC6 [rC6] [] rC6 10 [] (by decide) (by decide)
    (by decide) (by decide) (by decide) (by decide) (by decide)


/-! ### Lifecycle claims: peer confirmation (C7) -/

/-- Claim C7 counterexample fixture: a reminder awaiting peer
verification on message 700, with a recorded reminder message 500 and
retry count 3. -/
def rC7 : ReminderData :=
  ⟨1, 10, 100, "dishes", "daily", "18:00", ⟨2024, 1, 1, 9, 0, 0⟩, none,
    some 3, some 500, some 700⟩

/-- Claim C7 counterexample fixture: a peer (user 20) reacts with thumbs
up on the verification message 700. -/
def evC7 : ReactionEvent := ⟨700, 100, 99, [10], "👍", 20, false, true, true⟩

/-- Claim C7 counterexample: after a peer confirms on the exact recorded
verification message, the handler clears the verification message id
but never clears the pending reminder message id, so under the
field-derived state mapping of spec section 4.4 the reminder is left in
AwaitingSelfReport, not Idle — reactions on the old reminder message
are still honored. -/
theorem confirm_not_idle_counterexample :
    stateOf rC7 = RState.awaitingPeerVerification ∧
    rC7.verification_message_id = some evC7.message_id ∧
    (on_reaction_add 99 ⟨2024, 1, 1, 10, 0, 0⟩ 602 evC7 [rC7] []).reminders =
      [⟨1, 10, 100, "dishes", "daily", "18:00", ⟨2024, 1, 1, 18, 0, 0⟩, none,
        some 0, some 500, none⟩] ∧
    stateOf (⟨1, 10, 100, "dishes", "daily", "18:00", ⟨2024, 1, 1, 18, 0, 0⟩,
      none, some 0, some 500, none⟩ : ReminderData) =
      RState.awaitingSelfReport ∧
    stateOf (⟨1, 10, 100, "dishes", "daily", "18:00", ⟨2024, 1, 1, 18, 0, 0⟩,
      none, some 0, some 500, none⟩ : ReminderData) ≠ RState.idle := by
  decide

/-- Claim C7 (amended): for every reminder in the AwaitingPeerVerification
state, when a peer reacts "confirm" on the exact message recorded as
pending_verification_message_id, the engine computes the new
next_fire_at via the Schedule Calculator from the stored schedule kind
and parameters, resets retry_count to 0, clears
pending_verification_message_id, and (re)schedules the reminder-kind
job at the new time; pending_reminder_message_id is not cleared, so by
the field-derived state mapping the reminder is left in
AwaitingSelfReport rather than Idle. -/
theorem confirm_reschedules_via_calculator
    (botId freshId : Nat) (now : DateTime) (ev : ReactionEvent)
    (rs : List ReminderData) (sched : List Job) (r : ReminderData)
    (u L : Nat) (rest : List Nat) (nr : DateTime)
    (hbot : ev.reactor_is_bot = false)
    (hmen : ev.mentions = u :: rest)
    (hrne : ev.reactor_id ≠ u)
    (hpeer : ev.reactor_has_peer_role = true)
    (hfind : findReminder rs u ev.channel_id = some r)
    (hvm : r.verification_message_id = some ev.message_id)
    (hemo : ev.emoji = "👍")
    (hcalc : calculate_next_reminder r.schedule_type r.schedule_value now =
      some nr)
    (hlm : r.last_message_id = some L) :
    (on_reaction_add botId now freshId ev rs sched).reminders =
      updateById rs r.id (fun x =>
        { x with next_reminder := nr, retry_count := some 0,
                 verification_message_id := none }) ∧
    getJob (on_reaction_add botId now freshId ev rs sched).sched
        JobKind.reminder r.id = some ⟨JobKind.reminder, r.id, nr⟩ ∧
    (on_reaction_add botId now freshId ev rs sched).sent =
      [MsgTag.verifiedNotice] ∧
    stateOf { r with next_reminder := nr, retry_count := some 0,
                     verification_message_id := none } =
      RState.awaitingSelfReport ∧
    stateOf { r with next_reminder := nr, retry_count := some 0,
                     verification_message_id := none } ≠ RState.idle := by
  have h1 : addJob (removeJob sched JobKind.reminder r.id)
      ⟨JobKind.reminder, r.id, nr⟩ =
      some (removeJob sched JobKind.reminder r.id ++
        [⟨JobKind.reminder, r.id, nr⟩]) := by
    simp [addJob, getJob_removeJob_self]
  have hres : on_reaction_add botId now freshId ev rs sched =
      ⟨updateById rs r.id (fun x =>
          { x with next_reminder := nr, retry_count := some 0,
                   verification_message_id := none }),
        removeJob sched JobKind.reminder r.id ++
          [⟨JobKind.reminder, r.id, nr⟩],
        [MsgTag.verifiedNotice]⟩ := by
    simp [on_reaction_add, hbot, hmen, hrne, hpeer, hfind, hvm, hemo,
      hcalc, h1]
  have hsched : (on_reaction_add botId now freshId ev rs sched).sched =
      removeJob sched JobKind.reminder r.id ++
        [⟨JobKind.reminder, r.id, nr⟩] := by rw [hres]
  refine ⟨by rw [hres], ?_, by rw [hres], ?_, ?_⟩
  · rw [hsched, getJob_append_single]
    simp [getJob_removeJob_self, Option.or]
  · simp [stateOf, hlm]
  · simp [stateOf, hlm]

/-- Witness for `confirm_reschedules_via_calculator` at the concrete
fixture state. -/
theorem confirm_reschedules_via_calculator_witness :
    (on_reaction_add 99 ⟨2024, 1, 1, 10, 0, 0⟩ 602 evC7 [rC7] []).reminders =
      updateById [rC7] rC7.id (fun x =>
        { x with next_reminder := ⟨2024, 1, 1, 18, 0, 0⟩,
                 retry_count := some 0,
                 verification_message_id := none }) ∧
    getJob (on_reaction_add 99 ⟨2024, 1, 1, 10, 0, 0⟩ 602 evC7 [rC7] []).sched
        JobKind.reminder rC7.id =
      some ⟨JobKind.reminder, rC7.id, ⟨2024, 1, 1, 18, 0, 0⟩⟩ ∧
    (on_reaction_add 99 ⟨2024, 1, 1, 10, 0, 0⟩ 602 evC7 [rC7] []).sent =
      [MsgTag.verifiedNotice] ∧
    stateOf { rC7 with next_reminder := (⟨2024, 1, 1, 18, 0, 0⟩ : DateTime),
                       retry_count := some 0,
                       verification_message_id := none } =
      RState.awaitingSelfReport ∧
    stateOf { rC7 with next_reminder := (⟨2024, 1, 1, 18, 0, 0⟩ : DateTime),
                       retry_count := some 0,
                       verification_message_id := none } ≠ RState.idle :=
  confirm_reschedules_via_calculator 99 602 ⟨2024, 1, 1, 10, 0, 0⟩ evC7
    [rC7] [] rC7 10 500 [] ⟨2024, 1, 1, 18, 0, 0⟩ (by decide) (by decide)
    (by decide) (by decide) (by decide) (by decide) (by decide) (by decide)
    (by decide)


/-! ### Lifecycle claims: stale verification (C8), correlation (C9),
branch exclusivity (C10) -/

/-- Claim C8 (confirmed): for every peer-verification reaction event
whose message id does not equal the selected reminder's stored
pending_verification_message_id (stale or foreign verification message,
including a cleared NULL value), processing the event changes no
reminder state, performs no storage write, touches no job, and sends no
message. -/
theorem stale_verification_reaction_is_noop
    (botId freshId : Nat) (now : DateTime) (ev : ReactionEvent)
    (rs : List ReminderData) (sched : List Job) (r : ReminderData)
    (u : Nat) (rest : List Nat)
    (hbot : ev.reactor_is_bot = false)
    (hmen : ev.mentions = u :: rest)
    (hrne : ev.reactor_id ≠ u)
    (hpeer : ev.reactor_has_peer_role = true)
    (hfind : findReminder rs u ev.channel_id = some r)
    (hvm : r.verification_message_id ≠ some ev.message_id) :
    on_reaction_add botId now freshId ev rs sched = ⟨rs, sched, []⟩ := by
  simp [on_reaction_add, hbot, hmen, hrne, hpeer, hfind, hvm]

/-- Claim C8 witness fixture: a reminder whose outstanding verification
message is 700. -/
def rC8 : ReminderData :=
  ⟨1, 10, 100, "dishes", "daily", "18:00", ⟨2024, 1, 1, 9, 0, 0⟩, none,
    some 1, some 500, some 700⟩

/-- Claim C8 witness fixture: a peer reacts on message 999, which is not
the recorded verification message 700. -/
def evC8 : ReactionEvent := ⟨999, 100, 99, [10], "👍", 20, false, true, true⟩

/-- Witness for `stale_verification_reaction_is_noop` at the concrete
fixture state. -/
theorem stale_verification_reaction_is_noop_witness :
    on_reaction_add 99 ⟨2024, 1, 1, 10, 0, 0⟩ 604 evC8 [rC8]
        [⟨JobKind.reminder, 1, ⟨2024, 1, 2, 9, 0, 0⟩⟩] =
      ⟨[rC8], [⟨JobKind.reminder, 1, ⟨2024, 1, 2, 9, 0, 0⟩⟩], []⟩ :=
  stale_verification_reaction_is_noop 99 604 ⟨2024, 1, 1, 10, 0, 0⟩ evC8
    [rC8] [⟨JobKind.reminder, 1, ⟨2024, 1, 2, 9, 0, 0⟩⟩] rC8 10 []
    (by decide) (by decide) (by decide) (by decide) (by decide) (by decide)

/-- Claim C9 fixture: first reminder of the assignee in channel 100; its
reminder message is 500. -/
def rC9a : ReminderData :=
  ⟨1, 10, 100, "dishes", "daily", "18:00", ⟨2024, 1, 1, 9, 0, 0⟩, none,
    some 0, some 500, none⟩

/-- Claim C9 fixture: second reminder of the same assignee in the same
channel; its reminder message is 777. -/
def rC9b : ReminderData :=
  ⟨2, 10, 100, "laundry", "daily", "19:00", ⟨2024, 1, 1, 9, 30, 0⟩, none,
    some 0, some 777, none⟩

/-- Claim C9 (confirmed): for every self-report reaction event (the
reactor is the first mentioned user), the handler never compares the
reacted message id to the stored pending_reminder_message_id — its
result is invariant under changing the message id — and it selects the
target reminder only by the (assignee, channel) pair: with two
reminders of the same assignee in the same channel, a thumbs-up
reaction on ANY message id, including the second reminder's message
777, starts a verification on the first row the query returns, not on
the reminder whose message was reacted to. -/
theorem self_report_ignores_message_id :
    (∀ (botId freshId : Nat) (now : DateTime) (ev : ReactionEvent)
        (rs : List ReminderData) (sched : List Job) (m1 m2 : Nat),
      ev.mentions.head? = some ev.reactor_id →
      on_reaction_add botId now freshId { ev with message_id := m1 } rs sched =
        on_reaction_add botId now freshId { ev with message_id := m2 } rs
          sched) ∧
    (∀ mid : Nat,
      on_reaction_add 99 ⟨2024, 1, 1, 10, 0, 0⟩ 600
          ⟨mid, 100, 99, [10], "👍", 10, false, false, true⟩ [rC9a, rC9b] [] =
        ⟨[{ rC9a with verification_message_id := some 600 }, rC9b], [],
          [MsgTag.verificationPrompt]⟩) := by
  constructor
  · intro botId freshId now ev rs sched m1 m2 hhead
    by_cases hbot : ev.reactor_is_bot
    · simp [on_reaction_add, hbot]
    · cases hme : ev.mentions with
      | nil => simp [on_reaction_add, hbot, hme]
      | cons u rest =>
        have hu : ev.reactor_id = u := by
          rw [hme] at hhead
          simp at hhead
          exact hhead.symm
        simp [on_reaction_add, hbot, hme, hu]
  · intro mid
    rfl

/-- Witness for the universally quantified part of
`self_report_ignores_message_id`: reacting on reminder message 777 and
on an unrelated message 999 produce identical results. -/
theorem self_report_ignores_message_id_witness :
    (⟨0, 100, 99, [10], "👍", 10, false, false, true⟩ :
        ReactionEvent).mentions.head? =
      some (⟨0, 100, 99, [10], "👍", 10, false, false, true⟩ :
        ReactionEvent).reactor_id ∧
    on_reaction_add 99 ⟨2024, 1, 1, 10, 0, 0⟩ 600
        { (⟨0, 100, 99, [10], "👍", 10, false, false, true⟩ : ReactionEvent)
          with message_id := 777 } [rC9a, rC9b] [] =
      on_reaction_add 99 ⟨2024, 1, 1, 10, 0, 0⟩ 600
        { (⟨0, 100, 99, [10], "👍", 10, false, false, true⟩ : ReactionEvent)
          with message_id := 999 } [rC9a, rC9b] [] :=
  ⟨by decide,
    self_report_ignores_message_id.1 99 600 ⟨2024, 1, 1, 10, 0, 0⟩
      ⟨0, 100, 99, [10], "👍", 10, false, false, true⟩ [rC9a, rC9b] []
      777 999 (by decide)⟩

/-- Claim C10 fixture: a reminder of assignee 10 awaiting peer
verification on message 700, with retry count 5. -/
def rC10 : ReminderData :=
  ⟨1, 10, 100, "dishes", "daily", "18:00", ⟨2024, 1, 1, 9, 0, 0⟩, none,
    some 5, some 500, some 700⟩

/-- Claim C10 fixture: the assignee themselves, who also holds the peer
role, reacts with thumbs up on their own outstanding verification
message 700. -/
def evC10 : ReactionEvent := ⟨700, 100, 99, [10], "👍", 10, false, true, true⟩

/-- Claim C10 (confirmed): for every reaction event whose reactor is the
mentioned assignee, the peer-verification branch is never executed even
when the reactor also holds the peer role — the result is invariant
under dropping the peer role — hence an assignee can never confirm or
reject their own outstanding peer verification: reacting thumbs up on
their own verification message runs the self-report branch instead,
recording a fresh verification prompt and leaving retry_count at 5
rather than resetting it to 0. -/
theorem assignee_never_verifies_own_completion :
    (∀ (botId freshId : Nat) (now : DateTime) (ev : ReactionEvent)
        (rs : List ReminderData) (sched : List Job),
      ev.mentions.head? = some ev.reactor_id →
      on_reaction_add botId now freshId ev rs sched =
        on_reaction_add botId now freshId
          { ev with reactor_has_peer_role := false } rs sched) ∧
    (on_reaction_add 99 ⟨2024, 1, 1, 10, 0, 0⟩ 603 evC10 [rC10] [] =
      ⟨[{ rC10 with verification_message_id := some 603 }], [],
        [MsgTag.verificationPrompt]⟩ ∧
     ({ rC10 with verification_message_id := some 603 } :
        ReminderData).retry_count = some 5) := by
  refine ⟨?_, by decide, by decide⟩
  intro botId freshId now ev rs sched hhead
  by_cases hbot : ev.reactor_is_bot
  · simp [on_reaction_add, hbot]
  · cases hme : ev.mentions with
    | nil => simp [on_reaction_add, hbot, hme]
    | cons u rest =>
      have hu : ev.reactor_id = u := by
        rw [hme] at hhead
        simp at hhead
        exact hhead.symm
      simp [on_reaction_add, hbot, hme, hu]

/-- Witness for the universally quantified part of
`assignee_never_verifies_own_completion` at the concrete fixture. -/
theorem assignee_never_verifies_own_completion_witness :
    evC10.mentions.head? = some evC10.reactor_id ∧
    on_reaction_add 99 ⟨2024, 1, 1, 10, 0, 0⟩ 603 evC10 [rC10] [] =
      on_reaction_add 99 ⟨2024, 1, 1, 10, 0, 0⟩ 603
        { evC10 with reactor_has_peer_role := false } [rC10] [] :=
  ⟨by decide,
    assignee_never_verifies_own_completion.1 99 603 ⟨2024, 1, 1, 10, 0, 0⟩
      evC10 [rC10] [] (by decide)⟩

example : calculate_next_reminder "daily" "18:00" ⟨2024,1,1,10,0,0⟩ = some ⟨2024,1,1,18,0,0⟩ := by decide
example : calculate_next_reminder "daily" "18:00" ⟨2024,1,1,19,0,0⟩ = some ⟨2024,1,2,18,0,0⟩ := by decide
example : calculate_next_reminder "weekly" "0,18:00" ⟨2024,1,1,10,0,0⟩ = some ⟨2024,1,8,18,0,0⟩ := by decide
example : weekday ⟨2024,1,1,0,0,0⟩ = 0 := by decide
